import Mathlib

/-!
# Verification of the react-dxf-viewer core

Shallow embedding of the DXF viewer component (`src/DXFViewer.tsx`,
`src/index.tsx`): the entity-to-geometry translation pass, bounding-box
accumulation, camera auto-framing, the document loader's URL branch, the
load/parse callback behaviour, the effect lifecycle with in-flight loads,
and the resource cleanup on unmount / reload.

JavaScript numbers are modelled by `ℚ`; the claims settled here do not
depend on floating-point rounding.  Duck-typed entity objects (fields that
may be absent, `typeof v.x === 'number'` guards) are modelled with
`Option` fields.
-/

namespace DxfViewer

/-- A duck-typed point-like object from the parser: each coordinate field
may be absent (`typeof v.x === 'number'` fails). -/
structure PointOpt where
  x : Option ℚ
  y : Option ℚ
  z : Option ℚ
  deriving DecidableEq, Repr

/-- `THREE.Vector3` as used by the component (coordinates as exact numbers). -/
structure Vec3 where
  x : ℚ
  y : ℚ
  z : ℚ
  deriving DecidableEq, Repr

/-- A parsed entity as the component sees it: a `type` tag plus the
duck-typed fields the translation pass inspects.  Fields the parser did not
emit are `none`.  (`center`/`radius` appear on CIRCLE entities; the
translation pass in `src` never reads them, they are carried to state
claims about unhandled tags.) -/
structure Entity where
  type : String
  start : Option PointOpt := none
  «end» : Option PointOpt := none
  vertices : Option (List PointOpt) := none
  points : Option (List PointOpt) := none
  center : Option PointOpt := none
  radius : Option ℚ := none
  deriving DecidableEq, Repr

/-- A renderable primitive added to the scene: a `THREE.Line` from two
points, or an indexed triangle mesh (`THREE.Mesh`) from a point list and an
index list. -/
inductive RenderPrimitive where
  | line (a b : Vec3)
  | mesh (pts : List Vec3) (indices : List ℕ)
  deriving DecidableEq, Repr

/-- `THREE.Box3` accumulated via `expandByPoint`: empty, or a min/max pair. -/
abbrev Box : Type := Option (Vec3 × Vec3)

/-- The empty box (`new THREE.Box3()`). -/
def Box.empty : Box := none

/-- `Box3.expandByPoint`: grow the box to contain `p`. -/
def Box.expandByPoint (b : Box) (p : Vec3) : Box :=
  match b with
  | none => some (p, p)
  | some (mn, mx) =>
      some (⟨min mn.x p.x, min mn.y p.y, min mn.z p.z⟩,
            ⟨max mx.x p.x, max mx.y p.y, max mx.z p.z⟩)

/-- `Box3.containsPoint`: componentwise `min ≤ p ≤ max`; an empty box
contains nothing. -/
def Box.contains (b : Box) (p : Vec3) : Bool :=
  match b with
  | none => false
  | some (mn, mx) =>
      decide (mn.x ≤ p.x) && decide (p.x ≤ mx.x) &&
      decide (mn.y ≤ p.y) && decide (p.y ≤ mx.y) &&
      decide (mn.z ≤ p.z) && decide (p.z ≤ mx.z)

/-- `ent.vertices.filter(v => v && typeof v.x === 'number' && typeof v.y ===
'number').slice(0, 4).map(v => new THREE.Vector3(v.x, v.y, v.z ?? 0))`
from the 3DFACE/SOLID branches of `loadData`. -/
def facePoints (vs : List PointOpt) : List Vec3 :=
  ((vs.filter fun v => v.x.isSome && v.y.isSome).take 4).map
    fun v => ⟨v.x.getD 0, v.y.getD 0, v.z.getD 0⟩

/-- The index list chosen for a 3DFACE/SOLID mesh:
`points.length === 4 && !points[3].equals(points[2]) ? [0,1,2,0,2,3] : [0,1,2]`. -/
def meshIndices (pts : List Vec3) : List ℕ :=
  if pts.length = 4 && !(pts.getD 3 ⟨0, 0, 0⟩ == pts.getD 2 ⟨0, 0, 0⟩) then
    [0, 1, 2, 0, 2, 3]
  else
    [0, 1, 2]

/-- The common 3DFACE/SOLID body: `if (points.length >= 3)` build an indexed
mesh and absorb every used point into the box, else skip the entity.
Returns the produced primitive together with the points expanded into the
bounding box, or `none` when the entity is skipped. -/
def mkFace (vs : List PointOpt) : Option (RenderPrimitive × List Vec3) :=
  let pts := facePoints vs
  if pts.length ≥ 3 then some (.mesh pts (meshIndices pts), pts) else none

/-- One iteration of `parsed.entities.forEach` in `loadData`
(src/DXFViewer.tsx lines 183-252): LINE with both endpoints carrying
numeric x,y becomes a two-point line; 3DFACE with a `vertices` array and
SOLID with a `points` array become indexed meshes via `mkFace`; every other
entity (wrong tag, or required fields missing) produces nothing. -/
def translateEntity (ent : Entity) : Option (RenderPrimitive × List Vec3) :=
  if ent.type = "LINE" then
    match ent.start, ent.«end» with
    | some s, some e =>
        match s.x, s.y, e.x, e.y with
        | some sx, some sy, some ex, some ey =>
            let a : Vec3 := ⟨sx, sy, s.z.getD 0⟩
            let b : Vec3 := ⟨ex, ey, e.z.getD 0⟩
            some (.line a b, [a, b])
        | _, _, _, _ => none
    | _, _ => none
  else if ent.type = "3DFACE" then
    match ent.vertices with
    | some vs => mkFace vs
    | none => none
  else if ent.type = "SOLID" then
    match ent.points with
    | some vs => mkFace vs
    | none => none
  else
    none

/-- The mutable accumulator of the `forEach` pass: primitives added to the
scene so far, the `box`, and the `hasGeometry` flag. -/
abbrev TransAcc : Type := List RenderPrimitive × Box × Bool

/-- One `forEach` step: a translated entity appends its primitive, expands
the box by each consumed point (in order), and sets `hasGeometry`; a
skipped entity leaves the accumulator unchanged. -/
def transStep (acc : TransAcc) (ent : Entity) : TransAcc :=
  match translateEntity ent with
  | none => acc
  | some (prim, pts) => (acc.1 ++ [prim], pts.foldl Box.expandByPoint acc.2.1, true)

/-- The `forEach` loop as a left fold written recursively. -/
def translateAux (acc : TransAcc) : List Entity → TransAcc
  | [] => acc
  | ent :: es => translateAux (transStep acc ent) es

/-- The whole translation pass of `loadData`: primitives, accumulated
bounding box, and the `hasGeometry` flag, starting from an empty scene
contribution and `new THREE.Box3()`. -/
def translate (es : List Entity) : TransAcc :=
  translateAux ([], Box.empty, false) es

/-- The points a single entity contributes to the bounding box. -/
def consumedPoints (es : List Entity) : List Vec3 :=
  es.flatMap fun ent =>
    match translateEntity ent with
    | none => []
    | some (_, pts) => pts

/-- The spec's per-tag "required fields validate" notion, restricted to the
three tags the code handles: LINE needs both endpoints with numeric x,y;
3DFACE (resp. SOLID) needs a `vertices` (resp. `points`) array with at
least 3 valid points after the numeric-x,y filter. -/
def requiredFieldsValidate (ent : Entity) : Bool :=
  if ent.type = "LINE" then
    match ent.start, ent.«end» with
    | some s, some e => s.x.isSome && s.y.isSome && e.x.isSome && e.y.isSome
    | _, _ => false
  else if ent.type = "3DFACE" then
    match ent.vertices with
    | some vs => (facePoints vs).length ≥ 3
    | none => false
  else if ent.type = "SOLID" then
    match ent.points with
    | some vs => (facePoints vs).length ≥ 3
    | none => false
  else
    false

/-- The entity tags the translation pass in `src` dispatches on. -/
def handledTags : List String := ["LINE", "3DFACE", "SOLID"]

/-! ## Camera and auto-framing -/

/-- The camera state the load pass touches: position, the OrbitControls
look-at target, and the orthographic near/far planes (set to 1 and 1000 at
construction and never changed by the framer). -/
structure Camera where
  pos : Vec3
  target : Vec3
  near : ℚ
  far : ℚ
  deriving DecidableEq, Repr

/-- `Box3.getCenter`: midpoint of min and max. -/
def getCenter (mn mx : Vec3) : Vec3 :=
  ⟨(mn.x + mx.x) / 2, (mn.y + mx.y) / 2, (mn.z + mx.z) / 2⟩

/-- `Box3.getSize`: max minus min componentwise. -/
def getSize (mn mx : Vec3) : Vec3 :=
  ⟨mx.x - mn.x, mx.y - mn.y, mx.z - mn.z⟩

/-- The `if (hasGeometry) { ... }` framing block of `loadData`
(src/DXFViewer.tsx lines 253-266): look-at target := box center, position
:= (center.x, center.y, cameraPosition?.z ?? maxDim * 2) where maxDim =
max(size.x, size.y).  Near/far are not touched
(`camera.updateProjectionMatrix()` does not change them).  When
`hasGeometry` is false nothing happens.  (`hasGeometry = true` with an
empty box is unreachable in `loadData`; modelled as a no-op.) -/
def frameCamera (cam : Camera) (box : Box) (hasGeometry : Bool)
    (explicitZ : Option ℚ) : Camera :=
  if hasGeometry then
    match box with
    | some (mn, mx) =>
        let c := getCenter mn mx
        let s := getSize mn mx
        let maxDim := max s.x s.y
        { cam with target := c, pos := ⟨c.x, c.y, explicitZ.getD (maxDim * 2)⟩ }
    | none => cam
  else
    cam

/-! ## The load callback -/

/-- The parsed document as `loadData` consumes it: `parsed.entities` may be
absent. -/
structure ParsedDoc where
  entities : Option (List Entity)
  deriving DecidableEq, Repr

/-- Observable state of one mounted viewer while loading: primitives
committed to the scene, camera, frames drawn by `renderer.render`, and the
success/failure callback invocations (`onError` records its argument). -/
structure RunState where
  scenePrims : List RenderPrimitive
  camera : Camera
  framesRendered : ℕ
  onLoadCalls : ℕ
  onErrorArgs : List String
  deriving DecidableEq, Repr

/-- `loadData` of src/DXFViewer.tsx (lines 167-274).  The parser call is
the only raiser inside the `try`; its outcome is the `Except` argument.
On a parse error: `onError?.(err)` and nothing else (no render, no
geometry, no `onLoad`).  On success: if `parsed.entities` exists, run the
translation pass, commit its primitives, frame the camera when geometry
was produced; in every success case render one frame and call `onLoad`. -/
def loadData (explicitZ : Option ℚ) (parseResult : Except String ParsedDoc)
    (st : RunState) : RunState :=
  match parseResult with
  | .error e => { st with onErrorArgs := st.onErrorArgs ++ [e] }
  | .ok doc =>
      match doc.entities with
      | none =>
          { st with framesRendered := st.framesRendered + 1,
                    onLoadCalls := st.onLoadCalls + 1 }
      | some es =>
          let r := translate es
          { st with
              scenePrims := st.scenePrims ++ r.1,
              camera := frameCamera st.camera r.2.1 r.2.2 explicitZ,
              framesRendered := st.framesRendered + 1,
              onLoadCalls := st.onLoadCalls + 1 }

/-! ## Document loader (URL branch of `readDXF`) -/

/-- Outcome of the `fetch` call: a completed response (any HTTP status,
with its body text) or a transport failure (the promise rejects). -/
inductive FetchResult where
  | response (status : ℕ) (body : String)
  | transportError (msg : String)
  deriving DecidableEq, Repr

/-- The URL branch of `readDXF` (src/DXFViewer.tsx lines 11-14):
`fetch(source).then(res => res.text())`.  A completed response resolves
with its body text — the status is never inspected; a transport failure
rejects with the error, propagated unchanged. -/
def readDXFUrl (r : FetchResult) : Except String String :=
  match r with
  | .response _ body => .ok body
  | .transportError e => .error e

/-- Success HTTP status, as the spec's "non-success status" reads. -/
def okStatus (s : ℕ) : Bool := 200 ≤ s && s < 300

/-! ## Effect lifecycle: in-flight loads across reloads -/

/-- One `useEffect` run's captured world: the scene the run's `loadData`
closure writes to, and whether the run's cleanup has executed. -/
structure Session where
  prims : List RenderPrimitive
  disposed : Bool
  deriving DecidableEq, Repr

/-- Viewer lifecycle state: every effect run's session (index = generation)
and the index of the live one. -/
structure ViewerState where
  sessions : List Session
  current : ℕ
  deriving DecidableEq, Repr

/-- Initial mount: one live session with an empty scene; its read/fetch is
in flight. -/
def initMount : ViewerState := ⟨[⟨[], false⟩], 0⟩

/-- A new load request (the `file` prop changed): React runs the previous
effect's cleanup — disposing the current session — then the effect body
creates a fresh scene and starts the new fetch.  Nothing cancels the old
promise chain. -/
def newLoad (st : ViewerState) : ViewerState :=
  let ss := st.sessions.set st.current
    { st.sessions.getD st.current ⟨[], true⟩ with disposed := true }
  ⟨ss ++ [⟨[], false⟩], ss.length⟩

/-- Load `k`'s text resolves and its `loadData` closure runs.  There is no
generation-token check in the code: the closure always executes against
the session it captured, adding that load's primitives to that session's
scene — stale or not. -/
def resolveLoad (st : ViewerState) (k : ℕ) (es : List Entity) : ViewerState :=
  let s := st.sessions.getD k ⟨[], true⟩
  ⟨st.sessions.set k { s with prims := s.prims ++ (translate es).1 }, st.current⟩

/-! ## Resource cleanup -/

/-- Disposal flags of one scene object created during a load: its geometry
buffer and its material. -/
structure SceneObj where
  geomDisposed : Bool
  matDisposed : Bool
  deriving DecidableEq, Repr

/-- Resources owned by one mounted viewer: scene objects, the renderer and
its GL context, the scheduled animation frame, and the controls. -/
structure Resources where
  objs : List SceneObj
  rendererDisposed : Bool
  contextLost : Bool
  animScheduled : Bool
  controlsDisposed : Bool
  deriving DecidableEq, Repr

/-- The `cleanup` closure of src/DXFViewer.tsx (lines 134-165), run on
unmount and before the effect re-runs for a new load:
`cancelAnimationFrame`, `controls.dispose()`, traverse the scene disposing
every geometry and material, `renderer.dispose()`,
`renderer.forceContextLoss()`. -/
def cleanupDXFViewer (r : Resources) : Resources :=
  { objs := r.objs.map fun _ => ⟨true, true⟩,
    rendererDisposed := true,
    contextLost := true,
    animScheduled := false,
    controlsDisposed := true }

/-- The effect cleanup of the `DxfViewer` component (src/index.tsx lines
231-244): `cancelAnimationFrame`, `controls.dispose()`,
`renderer.dispose()`, remove the DOM children.  It does not traverse the
scene — geometries and materials are left undisposed — and it never calls
`forceContextLoss`. -/
def cleanupDxfViewer (r : Resources) : Resources :=
  { r with
      rendererDisposed := true,
      animScheduled := false,
      controlsDisposed := true }

/-! ## Concrete instances used by witnesses and counterexamples -/

/-- A well-formed LINE entity from `(0,0,0)` to `(1,2,0)`. -/
def goodLine : Entity :=
  { type := "LINE",
    start := some ⟨some 0, some 0, some 0⟩,
    «end» := some ⟨some 1, some 2, none⟩ }

/-- A malformed LINE entity: the start point is missing its x field. -/
def badLine : Entity :=
  { type := "LINE",
    start := some ⟨none, some 0, none⟩,
    «end» := some ⟨some 1, some 1, none⟩ }

/-- A tiny LINE from the origin to `(1/10, 1/10, 0)`; frames to a camera
z of `1/5`, below the spec's claimed clamp of 1. -/
def tinyLine : Entity :=
  { type := "LINE",
    start := some ⟨some 0, some 0, none⟩,
    «end» := some ⟨some (1/10), some (1/10), none⟩ }

/-- A well-formed CIRCLE entity: center `(0,0,0)`, radius `2`. -/
def circleEnt : Entity :=
  { type := "CIRCLE",
    center := some ⟨some 0, some 0, some 0⟩,
    radius := some 2 }

/-- A second well-formed CIRCLE entity: center `(1,1,0)`, radius `5`. -/
def circleEnt2 : Entity :=
  { type := "CIRCLE",
    center := some ⟨some 1, some 1, some 0⟩,
    radius := some 5 }

/-- An ARC entity (a tag the translation pass does not dispatch on). -/
def arcEnt : Entity := { type := "ARC" }

/-- A 3DFACE entity with exactly 3 valid vertices. -/
def triFace : Entity :=
  { type := "3DFACE",
    vertices := some [⟨some 0, some 0, none⟩, ⟨some 1, some 0, none⟩,
      ⟨some 1, some 1, none⟩] }

/-- A 3DFACE entity with 4 valid vertices, the 4th distinct from the 3rd. -/
def quadFace : Entity :=
  { type := "3DFACE",
    vertices := some [⟨some 0, some 0, none⟩, ⟨some 1, some 0, none⟩,
      ⟨some 1, some 1, none⟩, ⟨some 0, some 1, none⟩] }

/-- A SOLID entity with 4 valid points, the 4th equal to the 3rd (the
degenerate-quad encoding of a triangle). -/
def degenSolid : Entity :=
  { type := "SOLID",
    points := some [⟨some 0, some 0, none⟩, ⟨some 1, some 0, none⟩,
      ⟨some 1, some 1, none⟩, ⟨some 1, some 1, none⟩] }

/-- The camera as the effect constructs it: position `(0,0,5)`, target the
origin, near `1`, far `1000`. -/
def cam0 : Camera := ⟨⟨0, 0, 5⟩, ⟨0, 0, 0⟩, 1, 1000⟩

/-- A quiescent run state before a load, holding `cam0`. -/
def run0 : RunState := ⟨[], cam0, 0, 0, []⟩

/-! ## Helper lemmas -/

/-- An entity translates to a primitive exactly when its required fields
validate (for unrecognized tags both sides are false). -/
theorem translateEntity_isSome_eq (ent : Entity) :
    (translateEntity ent).isSome = requiredFieldsValidate ent := by
  unfold translateEntity requiredFieldsValidate mkFace
  split
  · cases hs : ent.start with
    | none => rfl
    | some s =>
        cases he : ent.«end» with
        | none => rfl
        | some e =>
            cases hx : s.x <;> cases hy : s.y <;>
              cases hex : e.x <;> cases hey : e.y <;> simp [hx, hy, hex, hey]
  · split
    · cases hv : ent.vertices with
      | none => rfl
      | some vs => by_cases h3 : (facePoints vs).length ≥ 3 <;> simp [h3]
    · split
      · cases hp : ent.points with
        | none => rfl
        | some vs => by_cases h3 : (facePoints vs).length ≥ 3 <;> simp [h3]
      · rfl

/-- A box contains the point it was just expanded by. -/
theorem contains_expandByPoint_self (b : Box) (p : Vec3) :
    Box.contains (b.expandByPoint p) p = true := by
  match b with
  | none => simp [Box.expandByPoint, Box.contains]
  | some (mn, mx) =>
      simp only [Box.expandByPoint, Box.contains, Bool.and_eq_true, decide_eq_true_eq]
      refine ⟨⟨⟨⟨⟨?_, ?_⟩, ?_⟩, ?_⟩, ?_⟩, ?_⟩ <;>
        first
          | exact min_le_right _ _
          | exact le_max_right _ _

/-- Expanding a box keeps every point it already contained. -/
theorem contains_expandByPoint_mono (b : Box) (p q : Vec3)
    (h : Box.contains b p = true) : Box.contains (b.expandByPoint q) p = true := by
  match b with
  | none => simp [Box.contains] at h
  | some (mn, mx) =>
      simp only [Box.expandByPoint, Box.contains, Bool.and_eq_true, decide_eq_true_eq] at h ⊢
      obtain ⟨⟨⟨⟨⟨h1, h2⟩, h3⟩, h4⟩, h5⟩, h6⟩ := h
      refine ⟨⟨⟨⟨⟨?_, ?_⟩, ?_⟩, ?_⟩, ?_⟩, ?_⟩
      · exact le_trans (min_le_left _ _) h1
      · exact le_trans h2 (le_max_left _ _)
      · exact le_trans (min_le_left _ _) h3
      · exact le_trans h4 (le_max_left _ _)
      · exact le_trans (min_le_left _ _) h5
      · exact le_trans h6 (le_max_left _ _)

/-- Folding `expandByPoint` over a point list keeps old points. -/
theorem contains_foldl_mono (pts : List Vec3) (b : Box) (p : Vec3)
    (h : Box.contains b p = true) :
    Box.contains (pts.foldl Box.expandByPoint b) p = true := by
  induction pts generalizing b with
  | nil => exact h
  | cons q pts ih => exact ih _ (contains_expandByPoint_mono b p q h)

/-- Folding `expandByPoint` over a point list absorbs every member. -/
theorem contains_foldl_mem (pts : List Vec3) (b : Box) (p : Vec3)
    (h : p ∈ pts) : Box.contains (pts.foldl Box.expandByPoint b) p = true := by
  induction pts generalizing b with
  | nil => cases h
  | cons q pts ih =>
      rcases List.mem_cons.mp h with rfl | h
      · exact contains_foldl_mono pts _ p (contains_expandByPoint_self b p)
      · exact ih _ h

/-- The `forEach` loop never shrinks the box: any point already contained
stays contained. -/
theorem translateAux_box_mono (es : List Entity) (acc : TransAcc) (p : Vec3)
    (h : Box.contains acc.2.1 p = true) :
    Box.contains (translateAux acc es).2.1 p = true := by
  induction es generalizing acc with
  | nil => exact h
  | cons e es ih =>
      refine ih (transStep acc e) ?_
      unfold transStep
      match translateEntity e with
      | none => exact h
      | some (prim, pts) => exact contains_foldl_mono pts _ p h

/-- Every point consumed during the pass ends up inside the final box. -/
theorem translateAux_contains_consumed (es : List Entity) (acc : TransAcc)
    (p : Vec3) (h : p ∈ consumedPoints es) :
    Box.contains (translateAux acc es).2.1 p = true := by
  induction es generalizing acc with
  | nil => simp [consumedPoints] at h
  | cons e es ih =>
      rw [consumedPoints, List.flatMap_cons, List.mem_append] at h
      rcases h with h | h
      · refine translateAux_box_mono es (transStep acc e) p ?_
        unfold transStep
        match hte : translateEntity e with
        | none => rw [hte] at h; cases h
        | some (prim, pts) =>
            rw [hte] at h
            exact contains_foldl_mem pts _ p h
      · exact ih _ h

/-- The loop adds exactly one primitive per entity whose required fields
validate. -/
theorem translateAux_prims_length (es : List Entity) (acc : TransAcc) :
    (translateAux acc es).1.length
      = acc.1.length + (es.filter fun e => requiredFieldsValidate e).length := by
  induction es generalizing acc with
  | nil => simp [translateAux]
  | cons e es ih =>
      rw [translateAux, ih (transStep acc e), List.filter_cons]
      have hiff := translateEntity_isSome_eq e
      unfold transStep
      match hte : translateEntity e with
      | none =>
          rw [hte] at hiff
          simp only [Option.isSome_none] at hiff
          simp [← hiff]
      | some xp =>
          rw [hte] at hiff
          simp only [Option.isSome_some] at hiff
          simp [← hiff, Nat.add_assoc, Nat.add_comm 1]

/-- Entities translating to nothing leave the accumulator untouched. -/
theorem translateAux_all_none (es : List Entity) (acc : TransAcc)
    (h : ∀ e ∈ es, translateEntity e = none) : translateAux acc es = acc := by
  induction es generalizing acc with
  | nil => rfl
  | cons e es ih =>
      rw [translateAux]
      have he : translateEntity e = none := h e (List.mem_cons_self e es)
      have hstep : transStep acc e = acc := by unfold transStep; rw [he]
      rw [hstep]
      exact ih _ fun x hx => h x (List.mem_cons_of_mem e hx)

/-- If the pass produced no primitive, nothing at all happened: the box is
still empty and `hasGeometry` is false. -/
theorem translate_nil_of_prims_nil (es : List Entity)
    (h : (translate es).1 = []) : translate es = ([], Box.empty, false) := by
  have key : ∀ es (acc : TransAcc), (translateAux acc es).1 = [] →
      translateAux acc es = acc := by
    intro es
    induction es with
    | nil => intro acc _; rfl
    | cons e es ih =>
        intro acc hnil
        rw [translateAux] at hnil ⊢
        match hte : translateEntity e with
        | none =>
            have hstep : transStep acc e = acc := by unfold transStep; rw [hte]
            rw [hstep] at hnil ⊢
            exact ih _ hnil
        | some xp =>
            exfalso
            have hstep : (transStep acc e).1 = acc.1 ++ [xp.1] := by
              unfold transStep; rw [hte]
            have hlen := translateAux_prims_length es (transStep acc e)
            rw [hnil] at hlen
            simp only [List.length_nil, hstep, List.length_append,
              List.length_cons, List.length_nil] at hlen
            omega
  exact key es ([], Box.empty, false) h

/-- The loop over a concatenation is the loop over the parts in order. -/
theorem translateAux_append (l₁ l₂ : List Entity) (acc : TransAcc) :
    translateAux acc (l₁ ++ l₂) = translateAux (translateAux acc l₁) l₂ := by
  induction l₁ generalizing acc with
  | nil => rfl
  | cons e l₁ ih => rw [List.cons_append, translateAux, translateAux]; exact ih _

/-- An entity that translates to nothing can be deleted from the sequence
without changing the pass's result: translation continues with the
remainder exactly as if the entity were absent. -/
theorem translate_skip_of_none (bad : Entity) (hbad : translateEntity bad = none)
    (l₁ l₂ : List Entity) :
    translate (l₁ ++ bad :: l₂) = translate (l₁ ++ l₂) := by
  unfold translate
  rw [translateAux_append, translateAux_append, translateAux]
  have hstep : transStep (translateAux ([], Box.empty, false) l₁) bad
      = translateAux ([], Box.empty, false) l₁ := by
    unfold transStep; rw [hbad]
  rw [hstep]

/-- An entity whose required fields do not validate translates to nothing. -/
theorem translateEntity_eq_none_of_invalid (ent : Entity)
    (h : requiredFieldsValidate ent = false) : translateEntity ent = none := by
  have hiff := translateEntity_isSome_eq ent
  rw [h] at hiff
  exact Option.not_isSome_iff_eq_none.mp (by simp [hiff])

/-- Entities with a tag outside LINE/3DFACE/SOLID are not dispatched on. -/
theorem translateEntity_unhandled (ent : Entity) (h : ent.type ∉ handledTags) :
    translateEntity ent = none := by
  simp only [handledTags, List.mem_cons, List.not_mem_nil, or_false, not_or] at h
  unfold translateEntity
  rw [if_neg h.1, if_neg h.2.1, if_neg h.2.2]

/-- A 3DFACE entity with a vertex array, and a SOLID entity with a point
array, translate through `mkFace`. -/
theorem translateEntity_eq_mkFace (ent : Entity) (vs : List PointOpt)
    (h : ent.type = "3DFACE" ∧ ent.vertices = some vs
       ∨ ent.type = "SOLID" ∧ ent.points = some vs) :
    translateEntity ent = mkFace vs := by
  rcases h with ⟨ht, hv⟩ | ⟨ht, hv⟩ <;>
    · unfold translateEntity
      rw [ht, hv]
      simp

/-- `getD` at a set index, after appending on the right, returns the set
element. -/
theorem getD_set_append_self {α : Type} (l : List α) (i : ℕ) (h : i < l.length)
    (a b d : α) : ((l.set i a) ++ [b]).getD i d = a := by
  simp only [List.getD, List.get?_eq_getElem?]
  rw [List.getElem?_append_left (by simpa using h),
    List.getElem?_set_self (by simpa using h)]
  rfl

/-! ## Claim theorems -/

/-- C1, counterexample: a sequence holding one well-formed CIRCLE entity
(center `(0,0,0)` with numeric coordinates, numeric radius `2`) — a
recognized tag per the claim — produces zero primitives, not one, and the
bounds stay empty: the translation pass does not recognize CIRCLE. -/
theorem circle_entity_yields_no_primitive :
    circleEnt.type = "CIRCLE"
    ∧ circleEnt.center = some ⟨some 0, some 0, some 0⟩
    ∧ circleEnt.radius = some 2
    ∧ (translate [circleEnt]).1.length = 0
    ∧ (translate [circleEnt]).2.1 = Box.empty := by
  exact ⟨rfl, rfl, rfl, by decide, by decide⟩

/-- C1, amended: the tags the pass recognizes are exactly LINE, 3DFACE and
SOLID.  For every sequence of entities carrying those tags, the pass
produces exactly one primitive per entity whose required fields validate
and the accumulated box contains every coordinate consumed; deleting any
entity whose required fields do not validate (in any sequence) leaves the
pass's whole result unchanged, so a malformed entity is skipped without
aborting the pass. -/
theorem translate_handled_count_and_bounds :
    (∀ es : List Entity, (∀ e ∈ es, e.type ∈ handledTags) →
      (translate es).1.length
          = (es.filter fun e => requiredFieldsValidate e).length
        ∧ ∀ p ∈ consumedPoints es, Box.contains (translate es).2.1 p = true)
    ∧ ∀ (l₁ : List Entity) (bad : Entity) (l₂ : List Entity),
        requiredFieldsValidate bad = false →
        translate (l₁ ++ bad :: l₂) = translate (l₁ ++ l₂) := by
  constructor
  · intro es _
    constructor
    · simpa using translateAux_prims_length es ([], Box.empty, false)
    · intro p hp
      exact translateAux_contains_consumed es ([], Box.empty, false) p hp
  · intro l₁ bad l₂ hbad
    exact translate_skip_of_none bad (translateEntity_eq_none_of_invalid bad hbad) l₁ l₂

/-- C1, witness: on `[goodLine, badLine]` the pass produces exactly the
one primitive of the validating entity, its endpoints are inside the
bounds, and dropping the malformed `badLine` changes nothing. -/
theorem translate_handled_count_and_bounds_witness :
    ((translate [goodLine, badLine]).1.length
        = ([goodLine, badLine].filter fun e => requiredFieldsValidate e).length
      ∧ Box.contains (translate [goodLine, badLine]).2.1 ⟨1, 2, 0⟩ = true)
    ∧ translate ([goodLine] ++ badLine :: []) = translate ([goodLine] ++ []) := by
  refine ⟨⟨(translate_handled_count_and_bounds.1 [goodLine, badLine] (by decide)).1, ?_⟩,
    translate_handled_count_and_bounds.2 [goodLine] badLine [] (by decide)⟩
  exact (translate_handled_count_and_bounds.1 [goodLine, badLine] (by decide)).2
    ⟨1, 2, 0⟩ (by decide)

/-- C2: a 3DFACE (via its `vertices` array) or SOLID (via its `points`
array) whose filtered, truncated point list has exactly 3 points yields a
mesh with indices `[0,1,2]`; with 4 points and the 4th differing from the
3rd (componentwise equality), indices `[0,1,2,0,2,3]`; with 4 points and
the 4th equal to the 3rd, indices `[0,1,2]`. -/
theorem face_solid_triangulation (ent : Entity) (vs : List PointOpt)
    (hsrc : ent.type = "3DFACE" ∧ ent.vertices = some vs
          ∨ ent.type = "SOLID" ∧ ent.points = some vs) :
    ((facePoints vs).length = 3 →
        translateEntity ent
          = some (.mesh (facePoints vs) [0, 1, 2], facePoints vs))
    ∧ ((facePoints vs).length = 4 →
        (facePoints vs).getD 3 ⟨0, 0, 0⟩ ≠ (facePoints vs).getD 2 ⟨0, 0, 0⟩ →
        translateEntity ent
          = some (.mesh (facePoints vs) [0, 1, 2, 0, 2, 3], facePoints vs))
    ∧ ((facePoints vs).length = 4 →
        (facePoints vs).getD 3 ⟨0, 0, 0⟩ = (facePoints vs).getD 2 ⟨0, 0, 0⟩ →
        translateEntity ent
          = some (.mesh (facePoints vs) [0, 1, 2], facePoints vs)) := by
  have hmk := translateEntity_eq_mkFace ent vs hsrc
  refine ⟨fun h3 => ?_, fun h4 hne => ?_, fun h4 heq => ?_⟩
  · rw [hmk]; unfold mkFace meshIndices; simp [h3]
  · rw [hmk]; unfold mkFace meshIndices
    have h3lt : (3 : ℕ) < (facePoints vs).length := by omega
    have h2lt : (2 : ℕ) < (facePoints vs).length := by omega
    rw [List.getD_eq_getElem _ _ h3lt, List.getD_eq_getElem _ _ h2lt] at hne
    simp [h4, hne]
  · rw [hmk]; unfold mkFace meshIndices
    have h3lt : (3 : ℕ) < (facePoints vs).length := by omega
    have h2lt : (2 : ℕ) < (facePoints vs).length := by omega
    rw [List.getD_eq_getElem _ _ h3lt, List.getD_eq_getElem _ _ h2lt] at heq
    simp [h4, heq]

/-- C2, witness: the three triangulation cases at concrete entities — a
3-vertex 3DFACE, a 4-vertex 3DFACE with distinct 4th point, and a SOLID
whose 4th point repeats the 3rd. -/
theorem face_solid_triangulation_witness :
    translateEntity triFace
      = some (.mesh (facePoints [⟨some 0, some 0, none⟩, ⟨some 1, some 0, none⟩,
          ⟨some 1, some 1, none⟩]) [0, 1, 2],
          facePoints [⟨some 0, some 0, none⟩, ⟨some 1, some 0, none⟩,
          ⟨some 1, some 1, none⟩])
    ∧ translateEntity quadFace
      = some (.mesh (facePoints [⟨some 0, some 0, none⟩, ⟨some 1, some 0, none⟩,
          ⟨some 1, some 1, none⟩, ⟨some 0, some 1, none⟩]) [0, 1, 2, 0, 2, 3],
          facePoints [⟨some 0, some 0, none⟩, ⟨some 1, some 0, none⟩,
          ⟨some 1, some 1, none⟩, ⟨some 0, some 1, none⟩])
    ∧ translateEntity degenSolid
      = some (.mesh (facePoints [⟨some 0, some 0, none⟩, ⟨some 1, some 0, none⟩,
          ⟨some 1, some 1, none⟩, ⟨some 1, some 1, none⟩]) [0, 1, 2],
          facePoints [⟨some 0, some 0, none⟩, ⟨some 1, some 0, none⟩,
          ⟨some 1, some 1, none⟩, ⟨some 1, some 1, none⟩]) := by
  refine ⟨(face_solid_triangulation triFace _ (Or.inl ⟨rfl, rfl⟩)).1 (by decide),
    (face_solid_triangulation quadFace _ (Or.inl ⟨rfl, rfl⟩)).2.1 (by decide) (by decide),
    (face_solid_triangulation degenSolid _ (Or.inr ⟨rfl, rfl⟩)).2.2 (by decide) (by decide)⟩

/-- C3, counterexample: the claim's own instance — a CIRCLE with center
`(0,0,0)` and radius `2` — produces no primitive at all (no 65-point
closed loop), the bounds absorb nothing, and `hasGeometry` stays false. -/
theorem circle_translation_produces_nothing :
    translate [circleEnt] = ([], Box.empty, false) := by decide

/-- C3, amended: CIRCLE is not among the tags the translation pass
dispatches on — every CIRCLE entity, whatever its center and radius,
translates to nothing and can be deleted from any sequence without
changing the pass's result. -/
theorem circle_entity_skipped (ent : Entity) (h : ent.type = "CIRCLE") :
    translateEntity ent = none
    ∧ ∀ l₁ l₂ : List Entity, translate (l₁ ++ ent :: l₂) = translate (l₁ ++ l₂) := by
  have hnone : translateEntity ent = none := by
    refine translateEntity_unhandled ent ?_
    rw [h]
    decide
  exact ⟨hnone, fun l₁ l₂ => translate_skip_of_none ent hnone l₁ l₂⟩

/-- C3, witness: the CIRCLE with center `(1,1,0)` and radius `5`
translates to nothing and disappears from a sequence around it. -/
theorem circle_entity_skipped_witness :
    translateEntity circleEnt2 = none
    ∧ translate ([goodLine] ++ circleEnt2 :: [badLine])
        = translate ([goodLine] ++ [badLine]) := by
  exact ⟨(circle_entity_skipped circleEnt2 rfl).1,
    (circle_entity_skipped circleEnt2 rfl).2 [goodLine] [badLine]⟩

/-- C4, counterexample: framing the box of a LINE from `(0,0,0)` to
`(1/10, 1/10, 0)` from the constructed camera (near 1, far 1000) sets the
camera z to `1/5` — not the claimed `max(max(width,height) * 2, 1) = 1` —
and leaves near at 1 and far at 1000: the clip planes are not recomputed
to `far ≈ max(2 * cameraZ, 1)` with a small near such as 0.1. -/
theorem frame_no_clamp_no_clip_recompute :
    (frameCamera cam0 (translate [tinyLine]).2.1 (translate [tinyLine]).2.2 none).pos.z
        = 1 / 5
    ∧ (frameCamera cam0 (translate [tinyLine]).2.1 (translate [tinyLine]).2.2 none).pos.z
        ≠ 1
    ∧ (frameCamera cam0 (translate [tinyLine]).2.1 (translate [tinyLine]).2.2 none).near
        = 1
    ∧ (frameCamera cam0 (translate [tinyLine]).2.1 (translate [tinyLine]).2.2 none).far
        = 1000
    ∧ (frameCamera cam0 (translate [tinyLine]).2.1 (translate [tinyLine]).2.2 none).far
        ≠ max (2 * (frameCamera cam0 (translate [tinyLine]).2.1
            (translate [tinyLine]).2.2 none).pos.z) 1 := by
  have hbox : (translate [tinyLine]).2.1
      = some (⟨0, 0, 0⟩, ⟨1/10, 1/10, 0⟩) := by
    norm_num [translate, translateAux, transStep, translateEntity, tinyLine,
      Box.expandByPoint, Box.empty]
  have hflag : (translate [tinyLine]).2.2 = true := by
    norm_num [translate, translateAux, transStep, translateEntity, tinyLine,
      Box.expandByPoint, Box.empty]
  rw [hbox, hflag]
  norm_num [frameCamera, getCenter, getSize, cam0]

/-- C4, amended: for a non-empty bounding volume the framer sets the
look-at target to the box center and the camera position to
`(center.x, center.y, explicitZ ?? max(width, height) * 2)` with no lower
clamp, and leaves the near and far planes exactly as they were (1 and 1000
from construction). -/
theorem frameCamera_sets_center_and_z (cam : Camera) (mn mx : Vec3)
    (explicitZ : Option ℚ) :
    (frameCamera cam (some (mn, mx)) true explicitZ).target = getCenter mn mx
    ∧ (frameCamera cam (some (mn, mx)) true explicitZ).pos
        = ⟨(getCenter mn mx).x, (getCenter mn mx).y,
            explicitZ.getD (max (getSize mn mx).x (getSize mn mx).y * 2)⟩
    ∧ (frameCamera cam (some (mn, mx)) true explicitZ).near = cam.near
    ∧ (frameCamera cam (some (mn, mx)) true explicitZ).far = cam.far := by
  unfold frameCamera
  exact ⟨rfl, rfl, rfl, rfl⟩

/-- C5: when the pass produced no primitive, the bounds are empty and the
load leaves the camera exactly as it was before the load. -/
theorem empty_translation_framing_noop (es : List Entity) (st : RunState)
    (explicitZ : Option ℚ) (h : (translate es).1 = []) :
    (translate es).2.1 = Box.empty
    ∧ (loadData explicitZ (.ok ⟨some es⟩) st).camera = st.camera := by
  have ht := translate_nil_of_prims_nil es h
  constructor
  · rw [ht]
  · show (frameCamera st.camera (translate es).2.1 (translate es).2.2 explicitZ)
        = st.camera
    rw [ht]
    rfl

/-- C5, witness: the empty entity sequence leaves `cam0` untouched. -/
theorem empty_translation_framing_noop_witness :
    (translate ([] : List Entity)).2.1 = Box.empty
    ∧ (loadData none (.ok ⟨some []⟩) run0).camera = run0.camera :=
  empty_translation_framing_noop [] run0 none rfl

/-- C6, counterexample: a completed HTTP response with the non-success
status 404 still resolves the loader with the response body — the status
is never inspected, so a non-success status does not reach the failure
path. -/
theorem readDXFUrl_resolves_on_http_404 :
    okStatus 404 = false
    ∧ readDXFUrl (.response 404 "Not Found") = .ok "Not Found" := by
  exact ⟨by decide, rfl⟩

/-- C6, amended: the URL loader resolves with the response body decoded as
text for every completed response, whatever its HTTP status, and fails
exactly on transport failure, where the error is propagated unchanged (not
retried). -/
theorem readDXFUrl_resolves_body_rejects_transport :
    (∀ (status : ℕ) (body : String), readDXFUrl (.response status body) = .ok body)
    ∧ ∀ msg : String, readDXFUrl (.transportError msg) = .error msg :=
  ⟨fun _ _ => rfl, fun _ => rfl⟩

/-- C7, counterexample: mount, request a second load before the first
resolves (`newLoad`), then let the first load (generation 0, no longer
current) resolve with one LINE.  Its geometry IS applied to the scene its
callback captured — there is no generation-token check — even though that
session is disposed and generation 1 is current. -/
theorem stale_load_geometry_applied :
    ((resolveLoad (newLoad initMount) 0 [goodLine]).sessions.getD 0
        ⟨[], true⟩).prims.length = 1
    ∧ ((resolveLoad (newLoad initMount) 0 [goodLine]).sessions.getD 0
        ⟨[], true⟩).disposed = true
    ∧ (resolveLoad (newLoad initMount) 0 [goodLine]).current = 1 := by
  exact ⟨by decide, by decide, by decide⟩

/-- C7, amended: no generation token exists; a superseded load's callback
still runs and appends its geometry to the scene captured by its own
(already cleaned-up, detached) effect run.  The live session is untouched
by a stale resolution, so only the current load's geometry appears in the
viewport. -/
theorem stale_resolution_preserves_current_session (st : ViewerState) (k : ℕ)
    (es : List Entity) (h : k ≠ st.current) :
    (resolveLoad st k es).sessions.getD st.current ⟨[], true⟩
        = st.sessions.getD st.current ⟨[], true⟩
    ∧ (resolveLoad st k es).current = st.current := by
  constructor
  · unfold resolveLoad
    simp [List.getD, List.getElem?_set_ne h]
  · rfl

/-- C7, witness: after superseding the initial mount, resolving the stale
generation 0 leaves the live session (generation 1) unchanged. -/
theorem stale_resolution_preserves_current_session_witness :
    (resolveLoad (newLoad initMount) 0 [goodLine]).sessions.getD
        (newLoad initMount).current ⟨[], true⟩
      = (newLoad initMount).sessions.getD (newLoad initMount).current ⟨[], true⟩ :=
  (stale_resolution_preserves_current_session (newLoad initMount) 0 [goodLine]
    (by decide)).1

/-- C8, counterexample: the `DxfViewer` component's effect cleanup
(src/index.tsx lines 231-244) halts the loop and disposes controls and
renderer, but leaves a scene object's geometry buffer and material
undisposed and never force-loses the drawing context. -/
theorem index_cleanup_leaves_resources_undisposed :
    (cleanupDxfViewer ⟨[⟨false, false⟩], false, false, true, false⟩).objs
        = [⟨false, false⟩]
    ∧ (cleanupDxfViewer ⟨[⟨false, false⟩], false, false, true, false⟩).contextLost
        = false := by
  exact ⟨rfl, rfl⟩

/-- C8, amended: the `DXFViewer` component's cleanup — run on unmount and
before a new load's effect — disposes every scene object's geometry and
material, disposes the renderer, force-loses the context, halts the
animation loop and disposes the controls; and each new load starts from a
fresh empty scene while the superseded session is disposed, so no
primitive survives into the next load.  (`DxfViewer` in index.tsx disposes
only controls and renderer.) -/
theorem cleanup_disposes_all_resources (r : Resources) (st : ViewerState)
    (hcur : st.current < st.sessions.length) :
    (∀ o ∈ (cleanupDXFViewer r).objs, o.geomDisposed = true ∧ o.matDisposed = true)
    ∧ (cleanupDXFViewer r).rendererDisposed = true
    ∧ (cleanupDXFViewer r).contextLost = true
    ∧ (cleanupDXFViewer r).animScheduled = false
    ∧ (cleanupDXFViewer r).controlsDisposed = true
    ∧ (newLoad st).sessions.getD (newLoad st).current ⟨[], true⟩ = ⟨[], false⟩
    ∧ ((newLoad st).sessions.getD st.current ⟨[], true⟩).disposed = true := by
  refine ⟨?_, rfl, rfl, rfl, rfl, ?_, ?_⟩
  · intro o ho
    simp only [cleanupDXFViewer, List.mem_map] at ho
    obtain ⟨_, _, rfl⟩ := ho
    exact ⟨rfl, rfl⟩
  · show ((st.sessions.set st.current _ ++ [(⟨[], false⟩ : Session)]).getD
        (st.sessions.set st.current _).length ⟨[], true⟩) = ⟨[], false⟩
    simp [List.getD, List.getElem?_concat_length]
  · unfold newLoad
    rw [getD_set_append_self st.sessions st.current hcur]

/-- C8, witness: cleanup of a session with one live object, and a reload
from a singleton lifecycle state. -/
theorem cleanup_disposes_all_resources_witness :
    ((cleanupDXFViewer ⟨[⟨false, false⟩], false, false, true, false⟩).objs
        = [⟨true, true⟩])
    ∧ (newLoad initMount).sessions.getD (newLoad initMount).current ⟨[], true⟩
        = ⟨[], false⟩ := by
  have h := cleanup_disposes_all_resources
    ⟨[⟨false, false⟩], false, false, true, false⟩ initMount (by decide)
  exact ⟨by decide, h.2.2.2.2.2.1⟩

/-- C9: when the parser raises, `loadData` catches it at the translation
boundary: `onError` is invoked with the triggering error, no geometry is
committed, no frame is rendered, `onLoad` is not called and the camera is
untouched (the function is total — the viewer does not crash). -/
theorem parse_error_invokes_onError_only (explicitZ : Option ℚ) (st : RunState)
    (err : String) :
    (loadData explicitZ (.error err) st).scenePrims = st.scenePrims
    ∧ (loadData explicitZ (.error err) st).camera = st.camera
    ∧ (loadData explicitZ (.error err) st).framesRendered = st.framesRendered
    ∧ (loadData explicitZ (.error err) st).onLoadCalls = st.onLoadCalls
    ∧ (loadData explicitZ (.error err) st).onErrorArgs = st.onErrorArgs ++ [err] :=
  ⟨rfl, rfl, rfl, rfl, rfl⟩

/-- C10: a successful parse with no entity list, or with only entities of
unhandled tags, still renders exactly one frame and calls `onLoad` once —
success is reported exactly as for a geometry-bearing document even though
zero primitives were produced. -/
theorem success_without_geometry_reports_load (explicitZ : Option ℚ) (st : RunState) :
    ((loadData explicitZ (.ok ⟨none⟩) st).onLoadCalls = st.onLoadCalls + 1
      ∧ (loadData explicitZ (.ok ⟨none⟩) st).framesRendered = st.framesRendered + 1
      ∧ (loadData explicitZ (.ok ⟨none⟩) st).scenePrims = st.scenePrims
      ∧ (loadData explicitZ (.ok ⟨none⟩) st).onErrorArgs = st.onErrorArgs)
    ∧ ∀ es : List Entity, (∀ e ∈ es, e.type ∉ handledTags) →
        (loadData explicitZ (.ok ⟨some es⟩) st).onLoadCalls = st.onLoadCalls + 1
        ∧ (loadData explicitZ (.ok ⟨some es⟩) st).framesRendered
            = st.framesRendered + 1
        ∧ (loadData explicitZ (.ok ⟨some es⟩) st).scenePrims = st.scenePrims
        ∧ (loadData explicitZ (.ok ⟨some es⟩) st).onErrorArgs = st.onErrorArgs := by
  refine ⟨⟨rfl, rfl, rfl, rfl⟩, fun es hes => ?_⟩
  have ht : translate es = ([], Box.empty, false) :=
    translateAux_all_none es ([], Box.empty, false)
      fun e he => translateEntity_unhandled e (hes e he)
  show (st.onLoadCalls + 1 = st.onLoadCalls + 1)
      ∧ (st.framesRendered + 1 = st.framesRendered + 1)
      ∧ (st.scenePrims ++ (translate es).1 = st.scenePrims)
      ∧ (st.onErrorArgs = st.onErrorArgs)
  rw [ht]
  exact ⟨rfl, rfl, by simp, rfl⟩

/-- C10, witness: a document whose only entity is an (unhandled) ARC still
reports success once with one frame drawn and an untouched scene. -/
theorem success_without_geometry_reports_load_witness :
    (loadData none (.ok ⟨some [arcEnt]⟩) run0).onLoadCalls = run0.onLoadCalls + 1
    ∧ (loadData none (.ok ⟨some [arcEnt]⟩) run0).framesRendered
        = run0.framesRendered + 1
    ∧ (loadData none (.ok ⟨some [arcEnt]⟩) run0).scenePrims = run0.scenePrims
    ∧ (loadData none (.ok ⟨some [arcEnt]⟩) run0).onErrorArgs = run0.onErrorArgs :=
  (success_without_geometry_reports_load none run0).2 [arcEnt] (by decide)

end DxfViewer
